import Mathlib

/-!
Shallow embedding of the transactional state-cache and call-execution layer
of a Starknet execution engine (Rust sources: `src/state/state_chache.rs`,
`src/utils.rs`, `src/lib.rs`), together with theorems settling the spec's
claims about it.

Rust `HashMap<K, V>` is modelled as `Finmap (fun _ : K => V)`; `BigInt` as
`ℤ`; `Vec<u8>` and `[u8; 32]` as `List ℕ`; `Result<T, E>` as `Except E T`.
A Rust method taking `&mut self` is modelled as a function returning the
updated value (paired with the `Result` when the method returns one).
-/

/-- `Vec<u8>` / `[u8; 32]`: an opaque byte string. -/
abbrev Bytes : Type := List ℕ

/-- `(contract_address, key)` — the storage-cell identity from
`state_chache.rs`. -/
abbrev StorageEntry : Type := ℤ × Bytes

/-- The state-error variant raised by `StateCache::set_initial_values`
(`StateError::StateCacheAlreadyInitialized`). -/
inductive StateError : Type
  | StateCacheAlreadyInitialized : StateError
deriving DecidableEq

deriving instance DecidableEq for Except

/-- Rust `HashMap<K, V>` as a finite map. -/
abbrev HMap (K V : Type) [DecidableEq K] : Type := Finmap (fun _ : K => V)

instance {K V : Type} [DecidableEq K] (a : K) (s : HMap K V) :
    Decidable (a ∈ s) :=
  decidable_of_iff ((s.lookup a).isSome = true)
    (by rw [Option.isSome_iff_exists]; exact (@Finmap.mem_iff K (fun _ => V) _ a s).symm)

/-- `StateCache`: three paired mappings (initial values read before any
write, and pending writes), exactly the six fields of the Rust struct. -/
structure StateCache : Type where
  class_hash_initial_values : HMap ℤ Bytes
  nonce_initial_values : HMap ℤ ℤ
  storage_initial_values : HMap StorageEntry ℤ
  class_hash_writes : HMap ℤ Bytes
  nonce_writes : HMap ℤ ℤ
  storage_writes : HMap StorageEntry ℤ
deriving DecidableEq

namespace StateCache

/-- `StateCache::new`: all six mappings empty. -/
def new : StateCache :=
  { class_hash_initial_values := ∅
    nonce_initial_values := ∅
    storage_initial_values := ∅
    class_hash_writes := ∅
    nonce_writes := ∅
    storage_writes := ∅ }

/-- `StateCache::get_class_hash`: the write mapping if the key is there,
otherwise the initial mapping. -/
def get_class_hash (self : StateCache) (contract_address : ℤ) : Option Bytes :=
  if contract_address ∈ self.class_hash_writes then
    self.class_hash_writes.lookup contract_address
  else
    self.class_hash_initial_values.lookup contract_address

/-- `StateCache::get_nonce`. -/
def get_nonce (self : StateCache) (contract_address : ℤ) : Option ℤ :=
  if contract_address ∈ self.nonce_writes then
    self.nonce_writes.lookup contract_address
  else
    self.nonce_initial_values.lookup contract_address

/-- `StateCache::get_storage`. -/
def get_storage (self : StateCache) (storage_entry : StorageEntry) : Option ℤ :=
  if storage_entry ∈ self.storage_writes then
    self.storage_writes.lookup storage_entry
  else
    self.storage_initial_values.lookup storage_entry

/-- `StateCache::update_writes_from_other`: `HashMap::extend` overlays the
argument's entries onto the receiver's, the argument winning on collision,
so each write mapping becomes `other ∪ self` (left-biased `Finmap` union). -/
def update_writes_from_other (self other : StateCache) : StateCache :=
  { self with
    class_hash_writes := other.class_hash_writes ∪ self.class_hash_writes
    nonce_writes := other.nonce_writes ∪ self.nonce_writes
    storage_writes := other.storage_writes ∪ self.storage_writes }

/-- `StateCache::update_writes`: extend the three write mappings with the
given maps. -/
def update_writes (self : StateCache) (address_to_class_hash : HMap ℤ Bytes)
    (address_to_nonce : HMap ℤ ℤ) (storage_updates : HMap StorageEntry ℤ) :
    StateCache :=
  { self with
    class_hash_writes := address_to_class_hash ∪ self.class_hash_writes
    nonce_writes := address_to_nonce ∪ self.nonce_writes
    storage_writes := storage_updates ∪ self.storage_writes }

/-- `StateCache::set_initial_values`: error unless all six mappings are
empty, else delegate to `update_writes`. The pair carries the `Result` and
the `&mut self` state after the call. -/
def set_initial_values (self : StateCache) (address_to_class_hash : HMap ℤ Bytes)
    (address_to_nonce : HMap ℤ ℤ) (storage_updates : HMap StorageEntry ℤ) :
    Except StateError Unit × StateCache :=
  if ¬(self.class_hash_initial_values = ∅ ∧ self.class_hash_writes = ∅ ∧
      self.nonce_initial_values = ∅ ∧ self.nonce_writes = ∅ ∧
      self.storage_initial_values = ∅ ∧ self.storage_writes = ∅) then
    (Except.error StateError.StateCacheAlreadyInitialized, self)
  else
    (Except.ok (), self.update_writes address_to_class_hash address_to_nonce storage_updates)

/-- `StateCache::get_accessed_contract_addresses`: a set extended with the
class-hash write keys, the nonce write keys, and the address component of
each storage write key. -/
def get_accessed_contract_addresses (self : StateCache) : Finset ℤ :=
  ((∅ ∪ self.class_hash_writes.keys) ∪ self.nonce_writes.keys) ∪
    self.storage_writes.keys.image Prod.fst

end StateCache

/-- First-some choice, the shadowing discipline of the cache: `a` when `a`
is `some`, else `b`. -/
def optOr {α : Type} (a b : Option α) : Option α :=
  match a with
  | some v => some v
  | none => b

/-! ## The VM decoding primitives (`src/utils.rs`) -/

/-- A VM memory address: segment index and offset (`cairo_rs` type). -/
structure Relocatable : Type where
  segment_index : ℤ
  offset : ℕ
deriving DecidableEq

/-- A VM memory cell value: a field element or a pointer. -/
inductive MaybeRelocatable : Type
  | int : ℤ → MaybeRelocatable
  | relocatableValue : Relocatable → MaybeRelocatable
deriving DecidableEq

/-- The memory faults the VM accessors report. -/
inductive MemoryError : Type
  | UnknownMemoryCell : MemoryError
  | ExpectedInteger : MemoryError
  | ExpectedRelocatable : MemoryError
deriving DecidableEq

/-- Modelled from the spec: the bytecode virtual machine and its memory are
an excluded external collaborator ("the core only reads/writes typed values
at opaque addresses through it"), so its memory is an abstract partial map
from addresses to typed cells. -/
structure VirtualMachine : Type where
  memory : Relocatable → Option MaybeRelocatable

namespace VirtualMachine

/-- Modelled from the spec: `cairo_rs`'s `VirtualMachine::get_integer` —
the integer at the address, an error if the cell is unmapped or holds a
pointer. -/
def get_integer (vm : VirtualMachine) (addr : Relocatable) : Except MemoryError ℤ :=
  match vm.memory addr with
  | none => Except.error MemoryError.UnknownMemoryCell
  | some (MaybeRelocatable.relocatableValue _) => Except.error MemoryError.ExpectedInteger
  | some (MaybeRelocatable.int i) => Except.ok i

/-- Modelled from the spec: `cairo_rs`'s `VirtualMachine::get_relocatable`. -/
def get_relocatable (vm : VirtualMachine) (addr : Relocatable) :
    Except MemoryError Relocatable :=
  match vm.memory addr with
  | none => Except.error MemoryError.UnknownMemoryCell
  | some (MaybeRelocatable.int _) => Except.error MemoryError.ExpectedRelocatable
  | some (MaybeRelocatable.relocatableValue r) => Except.ok r

/-- Modelled from the spec: `cairo_rs`'s `VirtualMachine::get_integer_range`
reads `size` consecutive integer cells starting at `addr`, failing on the
first cell that is unmapped or holds a pointer. -/
def get_integer_range (vm : VirtualMachine) (addr : Relocatable) (size : ℕ) :
    Except MemoryError (List ℤ) :=
  match size with
  | 0 => Except.ok []
  | n + 1 => do
    let v ← vm.get_integer addr
    let rest ← vm.get_integer_range ⟨addr.segment_index, addr.offset + 1⟩ n
    pure (v :: rest)

end VirtualMachine

/-- The decoding faults of `utils.rs` (`SyscallHandlerError`):
`SegmentationFault` for a bad address or type, `BigintToUsizeFail` (the
integer-overflow condition) for a value that does not fit `usize`. -/
inductive SyscallHandlerError : Type
  | SegmentationFault : SyscallHandlerError
  | BigintToUsizeFail : SyscallHandlerError
deriving DecidableEq

/-- `num_traits::ToPrimitive::to_usize` on `BigInt`: `Some` exactly when the
value fits a 64-bit unsigned machine index. -/
def to_usize (i : ℤ) : Option ℕ :=
  if 0 ≤ i ∧ i < 2 ^ 64 then some i.toNat else none

/-- `utils::get_integer`: VM integer read mapped to `SegmentationFault`,
then narrowed to `usize` with `BigintToUsizeFail` on overflow. -/
def get_integer (vm : VirtualMachine) (syscall_ptr : Relocatable) :
    Except SyscallHandlerError ℕ :=
  match vm.get_integer syscall_ptr with
  | Except.error _ => Except.error SyscallHandlerError.SegmentationFault
  | Except.ok i =>
    match to_usize i with
    | some n => Except.ok n
    | none => Except.error SyscallHandlerError.BigintToUsizeFail

/-- `utils::get_big_int`. -/
def get_big_int (vm : VirtualMachine) (syscall_ptr : Relocatable) :
    Except SyscallHandlerError ℤ :=
  match vm.get_integer syscall_ptr with
  | Except.error _ => Except.error SyscallHandlerError.SegmentationFault
  | Except.ok i => Except.ok i

/-- `utils::get_relocatable`. -/
def get_relocatable (vm : VirtualMachine) (syscall_ptr : Relocatable) :
    Except SyscallHandlerError Relocatable :=
  match vm.get_relocatable syscall_ptr with
  | Except.error _ => Except.error SyscallHandlerError.SegmentationFault
  | Except.ok r => Except.ok r

/-- `utils::bigint_to_usize`. -/
def bigint_to_usize (bigint : ℤ) : Except SyscallHandlerError ℕ :=
  match to_usize bigint with
  | some n => Except.ok n
  | none => Except.error SyscallHandlerError.BigintToUsizeFail

/-- `utils::get_integer_range`. -/
def get_integer_range (vm : VirtualMachine) (addr : Relocatable) (size : ℕ) :
    Except SyscallHandlerError (List ℤ) :=
  match vm.get_integer_range addr size with
  | Except.error _ => Except.error SyscallHandlerError.SegmentationFault
  | Except.ok l => Except.ok l

/-! ## The `Starknet` entry points (`src/lib.rs`) -/

/-- A field element (`felt::Felt`), opaque at this layer. -/
abbrev Felt : Type := ℤ

/-- Opaque general configuration. -/
structure StarknetGeneralConfig : Type

/-- Simulation flags (empty struct in `lib.rs`). -/
structure SimulationFlags : Type

/-- The transaction-error variants `lib.rs` manipulates. -/
inductive TransactionError : Type
  | StarknetError : String → TransactionError
  | ExecutionFault : TransactionError
deriving DecidableEq

/-- Modelled from the spec: the fields of `CallInfo` this layer reads
(return data of one entry-point invocation). -/
structure CallInfo : Type where
  retdata : List Felt
deriving DecidableEq

/-- Modelled from the spec: the fields of `TransactionExecutionInfo` this
layer reads (optional top-level call info and the actual fee). -/
structure TransactionExecutionInfo : Type where
  call_info : Option CallInfo
  actual_fee : ℕ
deriving DecidableEq

/-- Modelled from the spec: `CachedState` composes a `StateReader` with a
`StateCache`; its `business_logic` source is not under `src/`, and only its
value (clone) semantics matter here. -/
structure CachedState (T : Type) : Type where
  state_reader : T
  cache : StateCache

/-- Modelled from the spec: `Transaction::execute` (not under `src/`)
"drives one or more ExecutionEntryPoint calls" against the state it is
given and may mutate it; it is an arbitrary state-transforming function
returning a `TransactionExecutionInfo` or a `TransactionError`. -/
structure Transaction (T : Type) : Type where
  execute : CachedState T → StarknetGeneralConfig →
    Except TransactionError TransactionExecutionInfo × CachedState T

namespace Starknet

/-- `Starknet::call_contract`: clone the state, execute the transaction on
the clone, return the top-level call info's retdata (or the
"Empty CallInfo." error); the caller's state is returned untouched. -/
def call_contract {T : Type} (state : CachedState T) (tx : Transaction T)
    (config : StarknetGeneralConfig) :
    Except TransactionError (List Felt) × CachedState T :=
  let state_copy := state
  (match (tx.execute state_copy config).1 with
    | Except.ok tx_exec =>
      match tx_exec.call_info with
      | some r => Except.ok r.retdata
      | none => Except.error (TransactionError.StarknetError "Empty CallInfo.")
    | Except.error e => Except.error e,
   state)

/-- `Starknet::estimate_fee`: execute on a clone, return the actual fee. -/
def estimate_fee {T : Type} (state : CachedState T) (tx : Transaction T)
    (config : StarknetGeneralConfig) :
    Except TransactionError ℕ × CachedState T :=
  let state_copy := state
  ((tx.execute state_copy config).1.map fun tx_exec => tx_exec.actual_fee, state)

/-- `Starknet::simulate_tx`: execute on a clone, return the execution info
and the fee. -/
def simulate_tx {T : Type} (state : CachedState T) (tx : Transaction T)
    (config : StarknetGeneralConfig) (_options : Option SimulationFlags) :
    Except TransactionError (TransactionExecutionInfo × ℕ) × CachedState T :=
  let state_copy := state
  ((tx.execute state_copy config).1.map fun tx_exec => (tx_exec, tx_exec.actual_fee),
   state)

end Starknet

/-! ## Concrete inputs used by counterexamples and witnesses -/

/-- The class-hash map of the repo's own seeding test: address 10 ↦ a byte
string. -/
def exClassHashes : HMap ℤ Bytes := Finmap.singleton 10 [112, 101, 100]

/-- Nonce map: address 9 ↦ nonce 12. -/
def exNonces : HMap ℤ ℤ := Finmap.singleton 9 12

/-- Storage map: cell (20, key of 32 one-bytes) ↦ 18. -/
def exStorage : HMap StorageEntry ℤ := Finmap.singleton (20, List.replicate 32 1) 18

/-- A cache that is not freshly constructed (one pending nonce write). -/
def exCache : StateCache :=
  { StateCache.new with nonce_writes := Finmap.singleton 1 2 }

/-- A concrete cached state over a unit reader. -/
def exState : CachedState Unit := ⟨(), StateCache.new⟩

/-- A concrete configuration. -/
def exConfig : StarknetGeneralConfig := {}

/-- A transaction whose execution succeeds with a top-level call info. -/
def exTxSome : Transaction Unit := ⟨fun s _ => (Except.ok ⟨some ⟨[7]⟩, 3⟩, s)⟩

/-- A transaction whose execution succeeds without a call info. -/
def exTxNone : Transaction Unit := ⟨fun s _ => (Except.ok ⟨none, 3⟩, s)⟩

/-- A concrete VM memory: an integer at (0,0), a pointer at (0,1), an
integer too large for `usize` at (0,2), everything else unmapped. -/
def exVM : VirtualMachine :=
  ⟨fun r =>
    match r with
    | ⟨0, 0⟩ => some (MaybeRelocatable.int 5)
    | ⟨0, 1⟩ => some (MaybeRelocatable.relocatableValue ⟨1, 0⟩)
    | ⟨0, 2⟩ => some (MaybeRelocatable.int (2 ^ 64))
    | _ => none⟩

/-! ## Helper lemmas -/

theorem optOr_some {α : Type} (v : α) (b : Option α) : optOr (some v) b = some v := rfl

theorem optOr_none {α : Type} (b : Option α) : optOr none b = b := rfl

/-- `Finmap` left-biased union looked up at a key is the first-some choice
of the two lookups. -/
theorem lookup_union_optOr {K V : Type} [DecidableEq K] (s₁ s₂ : HMap K V) (a : K) :
    (s₁ ∪ s₂).lookup a = optOr (s₁.lookup a) (s₂.lookup a) := by
  by_cases h : a ∈ s₁
  · rw [Finmap.lookup_union_left h]
    rcases Finmap.mem_iff.mp h with ⟨v, hv⟩
    rw [hv, optOr_some]
  · rw [Finmap.lookup_union_right h, Finmap.lookup_eq_none.mpr h, optOr_none]

/-! ## Claims about `StateCache` -/

/-- C1: each `StateCache` get operation returns the write-mapping value
when the key is present there, otherwise the initial-mapping value when the
key is present there, otherwise `none`; in particular a key present in both
mappings yields the write value. -/
theorem stateCache_get_write_shadows_initial (c : StateCache) (a : ℤ) (e : StorageEntry) :
    c.get_class_hash a =
      optOr (c.class_hash_writes.lookup a) (c.class_hash_initial_values.lookup a) ∧
    c.get_nonce a =
      optOr (c.nonce_writes.lookup a) (c.nonce_initial_values.lookup a) ∧
    c.get_storage e =
      optOr (c.storage_writes.lookup e) (c.storage_initial_values.lookup e) := by
  refine ⟨?_, ?_, ?_⟩
  · by_cases h : a ∈ c.class_hash_writes
    · rcases Finmap.mem_iff.mp h with ⟨v, hv⟩
      simp [StateCache.get_class_hash, h, hv, optOr]
    · simp [StateCache.get_class_hash, h, Finmap.lookup_eq_none.mpr h, optOr]
  · by_cases h : a ∈ c.nonce_writes
    · rcases Finmap.mem_iff.mp h with ⟨v, hv⟩
      simp [StateCache.get_nonce, h, hv, optOr]
    · simp [StateCache.get_nonce, h, Finmap.lookup_eq_none.mpr h, optOr]
  · by_cases h : e ∈ c.storage_writes
    · rcases Finmap.mem_iff.mp h with ⟨v, hv⟩
      simp [StateCache.get_storage, h, hv, optOr]
    · simp [StateCache.get_storage, h, Finmap.lookup_eq_none.mpr h, optOr]

/-- C3: `set_initial_values` returns the `StateCacheAlreadyInitialized`
error exactly when at least one of the six mappings is non-empty. -/
theorem setInitialValues_error_iff_nonempty (c : StateCache) (m₁ : HMap ℤ Bytes)
    (m₂ : HMap ℤ ℤ) (m₃ : HMap StorageEntry ℤ) :
    (c.set_initial_values m₁ m₂ m₃).1 =
        Except.error StateError.StateCacheAlreadyInitialized ↔
      (c.class_hash_initial_values ≠ ∅ ∨ c.class_hash_writes ≠ ∅ ∨
       c.nonce_initial_values ≠ ∅ ∨ c.nonce_writes ≠ ∅ ∨
       c.storage_initial_values ≠ ∅ ∨ c.storage_writes ≠ ∅) := by
  unfold StateCache.set_initial_values
  by_cases h : (c.class_hash_initial_values = ∅ ∧ c.class_hash_writes = ∅ ∧
      c.nonce_initial_values = ∅ ∧ c.nonce_writes = ∅ ∧
      c.storage_initial_values = ∅ ∧ c.storage_writes = ∅)
  · rw [if_neg (not_not_intro h)]
    obtain ⟨h1, h2, h3, h4, h5, h6⟩ := h
    simp [h1, h2, h3, h4, h5, h6]
  · rw [if_pos h]
    constructor
    · intro _
      by_contra hc
      push_neg at hc
      exact h ⟨hc.1, hc.2.1, hc.2.2.1, hc.2.2.2.1, hc.2.2.2.2.1, hc.2.2.2.2.2⟩
    · intro _
      rfl

/-- C9: when `set_initial_values` fails, the cache is left exactly as it
was before the call. -/
theorem setInitialValues_failure_atomic (c : StateCache) (m₁ : HMap ℤ Bytes)
    (m₂ : HMap ℤ ℤ) (m₃ : HMap StorageEntry ℤ) (e : StateError)
    (h : (c.set_initial_values m₁ m₂ m₃).1 = Except.error e) :
    (c.set_initial_values m₁ m₂ m₃).2 = c := by
  unfold StateCache.set_initial_values at h ⊢
  by_cases hc : ¬(c.class_hash_initial_values = ∅ ∧ c.class_hash_writes = ∅ ∧
      c.nonce_initial_values = ∅ ∧ c.nonce_writes = ∅ ∧
      c.storage_initial_values = ∅ ∧ c.storage_writes = ∅)
  · rw [if_pos hc]
  · rw [if_neg hc] at h
    exact absurd h (by simp)

/-- C9 witness: a cache with one pending write refuses seeding and is
unchanged. -/
theorem setInitialValues_failure_atomic_witness :
    (exCache.set_initial_values ∅ ∅ ∅).2 = exCache :=
  setInitialValues_failure_atomic exCache ∅ ∅ ∅
    StateError.StateCacheAlreadyInitialized (by decide)

/-- C2 counterexample: seeding a fresh cache with the repo test's maps
succeeds but leaves the class-hash initial mapping empty, not equal to the
given (non-empty) map — the initial mappings are not populated. -/
theorem seed_leaves_initial_empty_cex :
    (StateCache.new.set_initial_values exClassHashes exNonces exStorage).1 =
        Except.ok () ∧
    (StateCache.new.set_initial_values exClassHashes exNonces exStorage).2.class_hash_initial_values
        ≠ exClassHashes ∧
    (StateCache.new.set_initial_values exClassHashes exNonces exStorage).2.class_hash_initial_values
        = ∅ ∧
    (StateCache.new.set_initial_values exClassHashes exNonces exStorage).2.nonce_initial_values
        = ∅ ∧
    (StateCache.new.set_initial_values exClassHashes exNonces exStorage).2.storage_initial_values
        = ∅ ∧
    exClassHashes ≠ ∅ ∧ exNonces ≠ ∅ ∧ exStorage ≠ ∅ := by
  refine ⟨rfl, by decide, rfl, rfl, rfl, by decide, by decide, by decide⟩

/-- C2 amended: seeding a freshly constructed cache succeeds and populates
the three write mappings with the given entries, while the three initial
mappings stay empty. -/
theorem seed_fresh_populates_write_mappings (m₁ : HMap ℤ Bytes) (m₂ : HMap ℤ ℤ)
    (m₃ : HMap StorageEntry ℤ) :
    (StateCache.new.set_initial_values m₁ m₂ m₃).1 = Except.ok () ∧
    (StateCache.new.set_initial_values m₁ m₂ m₃).2 =
      { class_hash_initial_values := ∅
        nonce_initial_values := ∅
        storage_initial_values := ∅
        class_hash_writes := m₁
        nonce_writes := m₂
        storage_writes := m₃ } := by
  have hc : ¬¬(StateCache.new.class_hash_initial_values = ∅ ∧
      StateCache.new.class_hash_writes = ∅ ∧
      StateCache.new.nonce_initial_values = ∅ ∧ StateCache.new.nonce_writes = ∅ ∧
      StateCache.new.storage_initial_values = ∅ ∧ StateCache.new.storage_writes = ∅) :=
    not_not_intro ⟨rfl, rfl, rfl, rfl, rfl, rfl⟩
  unfold StateCache.set_initial_values
  rw [if_neg hc]
  refine ⟨rfl, ?_⟩
  simp [StateCache.update_writes, StateCache.new, Finmap.union_empty]

/-- C4: merging writes overlays the other cache's three write mappings onto
the receiver's with the other winning on collision; merging child A then
child B gives, at each key, B's write, else A's write, else the parent's
prior write. -/
theorem updateWritesFromOther_overlay_order (p A B : StateCache) (a : ℤ)
    (e : StorageEntry) :
    ((p.update_writes_from_other A).class_hash_writes.lookup a =
      optOr (A.class_hash_writes.lookup a) (p.class_hash_writes.lookup a)) ∧
    ((p.update_writes_from_other A).nonce_writes.lookup a =
      optOr (A.nonce_writes.lookup a) (p.nonce_writes.lookup a)) ∧
    ((p.update_writes_from_other A).storage_writes.lookup e =
      optOr (A.storage_writes.lookup e) (p.storage_writes.lookup e)) ∧
    (((p.update_writes_from_other A).update_writes_from_other B).class_hash_writes.lookup a =
      optOr (B.class_hash_writes.lookup a)
        (optOr (A.class_hash_writes.lookup a) (p.class_hash_writes.lookup a))) ∧
    (((p.update_writes_from_other A).update_writes_from_other B).nonce_writes.lookup a =
      optOr (B.nonce_writes.lookup a)
        (optOr (A.nonce_writes.lookup a) (p.nonce_writes.lookup a))) ∧
    (((p.update_writes_from_other A).update_writes_from_other B).storage_writes.lookup e =
      optOr (B.storage_writes.lookup e)
        (optOr (A.storage_writes.lookup e) (p.storage_writes.lookup e))) := by
  simp [StateCache.update_writes_from_other, lookup_union_optOr]

/-- C5: merging writes from another cache leaves the receiver's three
initial mappings untouched, whatever the other cache holds. -/
theorem updateWritesFromOther_preserves_initial (c other : StateCache) :
    (c.update_writes_from_other other).class_hash_initial_values =
        c.class_hash_initial_values ∧
    (c.update_writes_from_other other).nonce_initial_values =
        c.nonce_initial_values ∧
    (c.update_writes_from_other other).storage_initial_values =
        c.storage_initial_values :=
  ⟨rfl, rfl, rfl⟩

/-- C6: an address is in `get_accessed_contract_addresses` exactly when it
keys the class-hash write mapping, keys the nonce write mapping, or is the
address component of a storage write key — so addresses appearing only in
initial mappings are excluded. -/
theorem accessedAddresses_iff_written (c : StateCache) (a : ℤ) :
    a ∈ c.get_accessed_contract_addresses ↔
      (a ∈ c.class_hash_writes ∨ a ∈ c.nonce_writes ∨
       ∃ k : Bytes, (a, k) ∈ c.storage_writes) := by
  simp only [StateCache.get_accessed_contract_addresses, Finset.mem_union,
    Finset.mem_image, Finmap.mem_keys, Finset.not_mem_empty, false_or]
  constructor
  · rintro ((h | h) | ⟨⟨x, k⟩, hk, rfl⟩)
    · exact Or.inl h
    · exact Or.inr (Or.inl h)
    · exact Or.inr (Or.inr ⟨k, hk⟩)
  · rintro (h | h | ⟨k, hk⟩)
    · exact Or.inl (Or.inl h)
    · exact Or.inl (Or.inr h)
    · exact Or.inr ⟨(a, k), hk, rfl⟩

/-! ## Claims about the `Starknet` entry points -/

/-- C7: `estimate_fee` and `simulate_tx` run the transaction on a clone of
the given cached state and return the caller's state unchanged, whatever
the execution did; the result is the executed transaction's fee (and info),
taken from the run on the clone. -/
theorem estimateFee_simulateTx_preserve_state {T : Type} (state : CachedState T)
    (tx : Transaction T) (config : StarknetGeneralConfig)
    (options : Option SimulationFlags) :
    (Starknet.estimate_fee state tx config).2 = state ∧
    (Starknet.simulate_tx state tx config options).2 = state ∧
    (Starknet.estimate_fee state tx config).1 =
      (tx.execute state config).1.map (fun tx_exec => tx_exec.actual_fee) ∧
    (Starknet.simulate_tx state tx config options).1 =
      (tx.execute state config).1.map (fun tx_exec => (tx_exec, tx_exec.actual_fee)) :=
  ⟨rfl, rfl, rfl, rfl⟩

/-- C10: `call_contract` runs the transaction on a clone and never mutates
the caller's state; on success with a call info it returns its retdata, on
success without one it returns the "Empty CallInfo." error, and an
execution error is passed through. -/
theorem callContract_retdata_or_empty {T : Type} (state : CachedState T)
    (tx : Transaction T) (config : StarknetGeneralConfig) :
    (Starknet.call_contract state tx config).2 = state ∧
    (∀ tx_exec, (tx.execute state config).1 = Except.ok tx_exec →
      (∀ ci, tx_exec.call_info = some ci →
        (Starknet.call_contract state tx config).1 = Except.ok ci.retdata) ∧
      (tx_exec.call_info = none →
        (Starknet.call_contract state tx config).1 =
          Except.error (TransactionError.StarknetError "Empty CallInfo."))) ∧
    (∀ err, (tx.execute state config).1 = Except.error err →
      (Starknet.call_contract state tx config).1 = Except.error err) := by
  refine ⟨rfl, ?_, ?_⟩
  · intro tx_exec h
    constructor
    · intro ci hci
      simp [Starknet.call_contract, h, hci]
    · intro hci
      simp [Starknet.call_contract, h, hci]
  · intro err h
    simp [Starknet.call_contract, h]

/-- C10 witness: concrete transactions exercising the retdata path, the
"Empty CallInfo." path, and state preservation. -/
theorem callContract_retdata_or_empty_witness :
    (Starknet.call_contract exState exTxSome exConfig).1 = Except.ok [7] ∧
    (Starknet.call_contract exState exTxNone exConfig).1 =
      Except.error (TransactionError.StarknetError "Empty CallInfo.") ∧
    (Starknet.call_contract exState exTxSome exConfig).2 = exState :=
  ⟨((callContract_retdata_or_empty exState exTxSome exConfig).2.1 ⟨some ⟨[7]⟩, 3⟩ rfl).1
      ⟨[7]⟩ rfl,
   ((callContract_retdata_or_empty exState exTxNone exConfig).2.1 ⟨none, 3⟩ rfl).2 rfl,
   (callContract_retdata_or_empty exState exTxSome exConfig).1⟩

/-! ## Claims about the syscall decoding primitives -/

/-- Unfolding of one step of the sequential range read. -/
theorem vm_getIntegerRange_succ (vm : VirtualMachine) (p : Relocatable) (n : ℕ) :
    vm.get_integer_range p (n + 1) =
      (vm.get_integer p).bind (fun v =>
        (vm.get_integer_range ⟨p.segment_index, p.offset + 1⟩ n).bind (fun rest =>
          Except.ok (v :: rest))) := rfl

/-- If every cell of the range holds an integer, the range read returns the
list of those integers. -/
theorem vm_getIntegerRange_ok (vm : VirtualMachine) :
    ∀ (size : ℕ) (p : Relocatable),
      (∀ j, j < size → ∃ v : ℤ, vm.memory ⟨p.segment_index, p.offset + j⟩ =
        some (MaybeRelocatable.int v)) →
      ∃ l : List ℤ, vm.get_integer_range p size = Except.ok l ∧ l.length = size ∧
        ∀ j, j < size → vm.memory ⟨p.segment_index, p.offset + j⟩ =
          some (MaybeRelocatable.int (l.getD j 0)) := by
  intro size
  induction size with
  | zero =>
    intro p _
    exact ⟨[], rfl, rfl, fun j hj => absurd hj (Nat.not_lt_zero j)⟩
  | succ n ih =>
    intro p h
    obtain ⟨v, hv⟩ := h 0 (Nat.succ_pos n)
    have hp0 : vm.memory p = some (MaybeRelocatable.int v) := by
      simpa using hv
    obtain ⟨l, hl, hlen, hcells⟩ := ih ⟨p.segment_index, p.offset + 1⟩ (fun j hj => by
      have hj1 := h (j + 1) (Nat.succ_lt_succ hj)
      simpa [Nat.add_assoc, Nat.add_comm 1 j] using hj1)
    have h1 : vm.get_integer p = Except.ok v := by
      simp [VirtualMachine.get_integer, hp0]
    refine ⟨v :: l, ?_, by simp [hlen], ?_⟩
    · rw [vm_getIntegerRange_succ, h1]
      simp [Except.bind, hl]
    · intro j hj
      cases j with
      | zero => simpa using hp0
      | succ m =>
        have hm : m < n := Nat.lt_of_succ_lt_succ hj
        have hc := hcells m hm
        simpa [Nat.add_assoc, Nat.add_comm 1 m] using hc
/-- If some cell of the range is unmapped or holds a pointer, the range
read fails. -/
theorem vm_getIntegerRange_error (vm : VirtualMachine) :
    ∀ (size : ℕ) (p : Relocatable) (j : ℕ), j < size →
      (∀ v : ℤ, vm.memory ⟨p.segment_index, p.offset + j⟩ ≠
        some (MaybeRelocatable.int v)) →
      ∃ err, vm.get_integer_range p size = Except.error err := by
  intro size
  induction size with
  | zero =>
    intro p j hj _
    exact absurd hj (Nat.not_lt_zero j)
  | succ n ih =>
    intro p j hj hbad
    by_cases h0 : ∃ v : ℤ, vm.memory p = some (MaybeRelocatable.int v)
    · obtain ⟨v, hv⟩ := h0
      have h1 : vm.get_integer p = Except.ok v := by
        simp [VirtualMachine.get_integer, hv]
      cases j with
      | zero => exact absurd (by simpa using hv) (hbad v)
      | succ m =>
        have hm : m < n := Nat.lt_of_succ_lt_succ hj
        obtain ⟨err, herr⟩ := ih ⟨p.segment_index, p.offset + 1⟩ m hm (fun w hw => by
          have hb := hbad w
          exact hb (by simpa [Nat.add_assoc, Nat.add_comm 1 m] using hw))
        refine ⟨err, ?_⟩
        rw [vm_getIntegerRange_succ, h1]
        simp [Except.bind, herr]
    · push_neg at h0
      have h1 : ∃ err0, vm.get_integer p = Except.error err0 := by
        cases hmem : vm.memory p with
        | none => exact ⟨MemoryError.UnknownMemoryCell, by
            simp [VirtualMachine.get_integer, hmem]⟩
        | some mv =>
          cases mv with
          | int i => exact absurd hmem (h0 i)
          | relocatableValue r => exact ⟨MemoryError.ExpectedInteger, by
              simp [VirtualMachine.get_integer, hmem]⟩
      obtain ⟨err0, herr0⟩ := h1
      refine ⟨err0, ?_⟩
      rw [vm_getIntegerRange_succ, herr0]
      simp [Except.bind]

/-- C8: each decoding primitive returns `SegmentationFault` when the
address is unmapped or holds the wrong type, `BigintToUsizeFail` (the
integer-overflow condition) when a value must fit `usize` and does not, and
the decoded value otherwise; the range read fails if any cell of the range
is bad and decodes all cells otherwise. -/
theorem syscall_decoding_faults (vm : VirtualMachine) (p : Relocatable) (i : ℤ)
    (r : Relocatable) (size : ℕ) :
    (vm.memory p = none →
      get_integer vm p = Except.error SyscallHandlerError.SegmentationFault ∧
      get_big_int vm p = Except.error SyscallHandlerError.SegmentationFault ∧
      get_relocatable vm p = Except.error SyscallHandlerError.SegmentationFault) ∧
    (vm.memory p = some (MaybeRelocatable.relocatableValue r) →
      get_integer vm p = Except.error SyscallHandlerError.SegmentationFault ∧
      get_big_int vm p = Except.error SyscallHandlerError.SegmentationFault ∧
      get_relocatable vm p = Except.ok r) ∧
    (vm.memory p = some (MaybeRelocatable.int i) →
      get_big_int vm p = Except.ok i ∧
      get_relocatable vm p = Except.error SyscallHandlerError.SegmentationFault ∧
      ((0 ≤ i ∧ i < 2 ^ 64) → get_integer vm p = Except.ok i.toNat) ∧
      (¬(0 ≤ i ∧ i < 2 ^ 64) →
        get_integer vm p = Except.error SyscallHandlerError.BigintToUsizeFail)) ∧
    ((0 ≤ i ∧ i < 2 ^ 64) → bigint_to_usize i = Except.ok i.toNat) ∧
    (¬(0 ≤ i ∧ i < 2 ^ 64) →
      bigint_to_usize i = Except.error SyscallHandlerError.BigintToUsizeFail) ∧
    ((∃ j, j < size ∧ ∀ v : ℤ, vm.memory ⟨p.segment_index, p.offset + j⟩ ≠
        some (MaybeRelocatable.int v)) →
      get_integer_range vm p size =
        Except.error SyscallHandlerError.SegmentationFault) ∧
    ((∀ j, j < size → ∃ v : ℤ, vm.memory ⟨p.segment_index, p.offset + j⟩ =
        some (MaybeRelocatable.int v)) →
      ∃ l : List ℤ, get_integer_range vm p size = Except.ok l ∧ l.length = size ∧
        ∀ j, j < size → vm.memory ⟨p.segment_index, p.offset + j⟩ =
          some (MaybeRelocatable.int (l.getD j 0))) := by
  refine ⟨?_, ?_, ?_, ?_, ?_, ?_, ?_⟩
  · intro h
    exact ⟨by simp [get_integer, VirtualMachine.get_integer, h],
      by simp [get_big_int, VirtualMachine.get_integer, h],
      by simp [get_relocatable, VirtualMachine.get_relocatable, h]⟩
  · intro h
    exact ⟨by simp [get_integer, VirtualMachine.get_integer, h],
      by simp [get_big_int, VirtualMachine.get_integer, h],
      by simp [get_relocatable, VirtualMachine.get_relocatable, h]⟩
  · intro h
    refine ⟨by simp [get_big_int, VirtualMachine.get_integer, h],
      by simp [get_relocatable, VirtualMachine.get_relocatable, h], ?_, ?_⟩
    · intro hfit
      simp only [get_integer, VirtualMachine.get_integer, h, to_usize]
      rw [if_pos hfit]
    · intro hfit
      simp only [get_integer, VirtualMachine.get_integer, h, to_usize]
      rw [if_neg hfit]
  · intro hfit
    simp only [bigint_to_usize, to_usize]
    rw [if_pos hfit]
  · intro hfit
    simp only [bigint_to_usize, to_usize]
    rw [if_neg hfit]
  · rintro ⟨j, hj, hbad⟩
    obtain ⟨err, herr⟩ := vm_getIntegerRange_error vm size p j hj hbad
    simp [get_integer_range, herr]
  · intro hall
    obtain ⟨l, hl, hlen, hcells⟩ := vm_getIntegerRange_ok vm size p hall
    exact ⟨l, by simp [get_integer_range, hl], hlen, hcells⟩

/-- C8 witness: the concrete VM memory exercises every fault and success
path of the decoding primitives. -/
theorem syscall_decoding_faults_witness :
    get_big_int exVM ⟨0, 0⟩ = Except.ok 5 ∧
    get_integer exVM ⟨0, 0⟩ = Except.ok 5 ∧
    get_integer exVM ⟨0, 1⟩ = Except.error SyscallHandlerError.SegmentationFault ∧
    get_relocatable exVM ⟨0, 1⟩ = Except.ok ⟨1, 0⟩ ∧
    get_big_int exVM ⟨0, 3⟩ = Except.error SyscallHandlerError.SegmentationFault ∧
    get_integer exVM ⟨0, 2⟩ = Except.error SyscallHandlerError.BigintToUsizeFail ∧
    bigint_to_usize 5 = Except.ok 5 ∧
    bigint_to_usize (2 ^ 64) = Except.error SyscallHandlerError.BigintToUsizeFail ∧
    get_integer_range exVM ⟨0, 3⟩ 1 =
      Except.error SyscallHandlerError.SegmentationFault ∧
    ∃ l : List ℤ, get_integer_range exVM ⟨0, 0⟩ 1 = Except.ok l ∧ l.length = 1 := by
  refine ⟨?_, ?_, ?_, ?_, ?_, ?_, ?_, ?_, ?_, ?_⟩
  · exact ((syscall_decoding_faults exVM ⟨0, 0⟩ 5 ⟨1, 0⟩ 0).2.2.1 rfl).1
  · exact ((syscall_decoding_faults exVM ⟨0, 0⟩ 5 ⟨1, 0⟩ 0).2.2.1 rfl).2.2.1 (by decide)
  · exact ((syscall_decoding_faults exVM ⟨0, 1⟩ 0 ⟨1, 0⟩ 0).2.1 rfl).1
  · exact ((syscall_decoding_faults exVM ⟨0, 1⟩ 0 ⟨1, 0⟩ 0).2.1 rfl).2.2
  · exact ((syscall_decoding_faults exVM ⟨0, 3⟩ 0 ⟨1, 0⟩ 0).1 rfl).2.1
  · exact ((syscall_decoding_faults exVM ⟨0, 2⟩ (2 ^ 64) ⟨1, 0⟩ 0).2.2.1 rfl).2.2.2
      (by decide)
  · exact (syscall_decoding_faults exVM ⟨0, 0⟩ 5 ⟨1, 0⟩ 0).2.2.2.1 (by decide)
  · exact (syscall_decoding_faults exVM ⟨0, 0⟩ (2 ^ 64) ⟨1, 0⟩ 0).2.2.2.2.1 (by decide)
  · exact (syscall_decoding_faults exVM ⟨0, 3⟩ 0 ⟨1, 0⟩ 1).2.2.2.2.2.1
      ⟨0, Nat.zero_lt_one, fun v h => Option.noConfusion h⟩
  · obtain ⟨l, hl, hlen, _⟩ :=
      (syscall_decoding_faults exVM ⟨0, 0⟩ 0 ⟨1, 0⟩ 1).2.2.2.2.2.2
        (fun j hj => by
          have hj0 : j = 0 := Nat.lt_one_iff.mp hj
          subst hj0
          exact ⟨5, rfl⟩)
    exact ⟨l, hl, hlen⟩
